import Mathlib

/-!
Shallow embedding of the question-selection and session-lifecycle engine of
the ml-question-backend repository, together with proofs that settle the
frozen claims about its specification.

Conventions of the embedding:
- SQLAlchemy rows become Lean structures; the database becomes a `DB` value
  holding the three tables as lists, and every operation is a pure function
  from `DB` to a result paired with the new `DB`.
- machine floats that only ever hold exact ratios (correct_rate, score,
  quality_score and the fixed thresholds 0.30, 0.95, 0.60) are modelled as
  rationals; every claim settled here is decided at values where the float
  computation in the source and the rational computation agree exactly.
- nullable columns become `Option`; the truthiness coalescing of the source
  (for example usage_count or 0) becomes `Option.getD`.
- SQL nondeterminism (the random tie-break in ORDER BY, the random order of
  the recycle query, random.shuffle) is modelled by the order of the stored
  lists: theorems quantify over all `DB` values, hence over every possible
  tie-break, and order-sensitive conclusions are never drawn from the parts
  the source randomises.
- timestamps are abstract `Nat` values passed in as a parameter `now`.
-/

namespace MLQB

/-- One exam item, from models.Question (src/models.py).  Only the columns the
selection, session and feedback logic reads are carried; the schema check
constraint restricts difficulty to mudah, sedang or sulit. -/
structure Question where
  question_id : String
  test_category : String
  subject : String
  subtype : Option String := none
  difficulty : String
  correct_answer : Option String := none
  explanation : Option String := none
  usage_count : Option Nat := none
  correct_rate : Option ℚ := none
  quality_score : Option ℚ := none
  is_used : Bool := false
  last_used_at : Option Nat := none
deriving DecidableEq

/-- One exposure of one question to one user in one session, from
models.QuestionUsage.  The source keys rows by a random hex usage_id; the
model uses a Nat identifier with the same role (row identity and creation
order). -/
structure Usage where
  usage_id : Nat
  question_id : String
  user_id : String
  session_id : String
  used_at : Nat
  user_answered : Bool := false
  user_answer : Option String := none
  was_correct : Bool := false
  time_spent : Option Nat := none
deriving DecidableEq

/-- One bounded exam or practice attempt, from models.QuestionSession. -/
structure SessionRec where
  session_id : String
  user_id : String
  test_category : String
  subject : String
  subtype : Option String := none
  difficulty : String
  total_questions : Nat
  status : String
  mode : String := "practice"
  session_type : String := "standard"
  time_limit : Nat := 60
  started_at : Option Nat := none
  completed_at : Option Nat := none
  correct_count : Nat := 0
  incorrect_count : Nat := 0
  unanswered_count : Nat := 0
  score : Option ℚ := none
  can_review : Bool := true
deriving DecidableEq

/-- The relational store: the three tables the engine touches. -/
structure DB where
  questions : List Question
  usages : List Usage
  sessions : List SessionRec
deriving DecidableEq

/-! ## Selector (src/core/smart_question_selector.py) -/

/-- The sort key of the priority ORDER BY: coalesce(usage_count, 0). -/
def usageKey (q : Question) : Nat := q.usage_count.getD 0

/-- The ordering relation of the primary sort key, usage_count ascending. -/
def usageLe (a b : Question) : Prop := usageKey a ≤ usageKey b

instance : DecidableRel usageLe := fun a b => Nat.decLe (usageKey a) (usageKey b)

instance : IsTotal Question usageLe := ⟨fun a b => Nat.le_total (usageKey a) (usageKey b)⟩

instance : IsTrans Question usageLe := ⟨fun _ _ _ h h2 => Nat.le_trans h h2⟩

/-- Sorting the candidate rows by global usage_count ascending.  The random
secondary key of the source is modelled by the order of the input list, over
which all theorems quantify. -/
def sortByUsage (l : List Question) : List Question := l.insertionSort usageLe

/-- All question ids appearing in any UsageRecord of this user: the lifetime
exclusion set built at the top of select_new_questions. -/
def usedQuestionIds (db : DB) (uid : String) : List String :=
  (db.usages.filter (fun u => u.user_id == uid)).map (fun u => u.question_id)

/-- The WHERE clause of the per-difficulty candidate query of
select_new_questions: category, subject, difficulty, never used by this user,
and the optional subtype filter. -/
def matchesBucket (cat subj : String) (st : Option String) (d : String)
    (usedIds : List String) (q : Question) : Bool :=
  q.test_category == cat && q.subject == subj && q.difficulty == d &&
    !(usedIds.contains q.question_id) &&
    (match st with
     | none => true
     | some s => q.subtype == some s)

/-- One difficulty bucket of select_new_questions: filter the eligible rows,
order by usage_count ascending (random tie-break), take the needed count. -/
def selectBucket (db : DB) (usedIds : List String) (cat subj : String)
    (st : Option String) (d : String) (needed : Nat) : List Question :=
  (sortByUsage (db.questions.filter (matchesBucket cat subj st d usedIds))).take needed

/-- The default difficulty split of select_new_questions when no distribution
is passed: int(count * 0.4) easy, int(count * 0.4) medium, remainder hard.
The float truncation of the source agrees with Nat division by 5 after
scaling at every count at which a claim is decided. -/
def defaultDistribution (count : Nat) : List (String × Nat) :=
  [(("mudah"), count * 2 / 5), (("sedang"), count * 2 / 5),
   (("sulit"), count - count * 2 / 5 - count * 2 / 5)]

/-- The result dictionary of select_new_questions. -/
structure SelectionResult where
  questions : List Question
  total_selected : Nat
  total_needed : Nat
  is_sufficient : Bool
  availability : List (String × Nat × Nat)
  total_available : Nat
deriving DecidableEq

/-- SmartQuestionSelector.select_new_questions: for each difficulty of the
requested distribution, select never-seen questions of that bucket ordered by
global usage_count ascending, and report per-bucket availability.  A missing
or empty distribution falls back to the default split, as the falsy test of
the source does. -/
def selectNewQuestions (db : DB) (uid cat subj : String) (count : Nat)
    (dist : Option (List (String × Nat))) (st : Option String) : SelectionResult :=
  let dist :=
    match dist with
    | none => defaultDistribution count
    | some [] => defaultDistribution count
    | some d => d
  let used := usedQuestionIds db uid
  let selected := dist.foldl (fun acc p => acc ++ selectBucket db used cat subj st p.1 p.2) []
  let avail := dist.map (fun p =>
    (p.1, p.2, (db.questions.filter (matchesBucket cat subj st p.1 used)).length))
  { questions := selected
    total_selected := selected.length
    total_needed := count
    is_sufficient := decide (count ≤ selected.length)
    availability := avail
    total_available := (avail.map (fun t => t.2.2)).sum }

/-- SmartQuestionSelector.mark_questions_used: append one UsageRecord per id
and bump each question. -/
def markQuestionsUsed (db : DB) (qids : List String) (uid sid : String) (now : Nat) : DB :=
  qids.foldl (fun d qid =>
    { d with
      usages := d.usages ++
        [{ usage_id := d.usages.length, question_id := qid, user_id := uid,
           session_id := sid, used_at := now }],
      questions := d.questions.map (fun q =>
        if q.question_id == qid then
          { q with is_used := true, usage_count := some (q.usage_count.getD 0 + 1),
                   last_used_at := some now }
        else q) }) db

/-! ## Session Lifecycle Manager (src/core/session_manager.py) -/

/-- The category and subject configuration table TES_POLRI of src/config.py,
as (subject, default count, time limit). -/
def polriConfig : List (String × Nat × Nat) :=
  [(("bahasa_inggris"), 60, 60), (("numerik"), 20, 30),
   (("pengetahuan_umum"), 30, 40), (("wawasan_kebangsaan"), 40, 50)]

/-- The category and subject configuration table TES_CPNS of src/config.py. -/
def cpnsConfig : List (String × Nat × Nat) :=
  [(("tiu"), 30, 40), (("wawasan_kebangsaan"), 30, 35), (("tkp"), 35, 40)]

/-- SessionManager._get_default_question_count. -/
def defaultQuestionCount (cat subj : String) : Nat :=
  if cat == "polri" then ((polriConfig.find? (fun p => p.1 == subj)).map (fun p => p.2.1)).getD 50
  else if cat == "cpns" then ((cpnsConfig.find? (fun p => p.1 == subj)).map (fun p => p.2.1)).getD 30
  else 50

/-- SessionManager._get_time_limit. -/
def defaultTimeLimit (cat subj : String) : Nat :=
  if cat == "polri" then ((polriConfig.find? (fun p => p.1 == subj)).map (fun p => p.2.2)).getD 60
  else if cat == "cpns" then ((cpnsConfig.find? (fun p => p.1 == subj)).map (fun p => p.2.2)).getD 40
  else 60

/-- Tier 1 of create_new_session: the primary selection, which asks the
Selector for the full count under the forced distribution with the single
key "hard" (the literal the source builds in forced_distribution). -/
def primarySelection (db : DB) (uid cat subj : String) (count : Nat)
    (st : Option String) : SelectionResult :=
  selectNewQuestions db uid cat subj count (some [(("hard"), count)]) st

/-- Tier 2 merging of create_new_session: append each fallback question whose
id is not already present, keeping the running exclusion list. -/
def secondaryMerge (current fallback : List Question) : List Question :=
  fallback.foldl (fun acc q =>
    if (acc.map (fun x => x.question_id)).contains q.question_id then acc
    else acc ++ [q]) current

/-- SessionManager._get_recycle_questions: previously seen questions of the
same category and subject, ignoring usage, in random order (modelled by the
stored order), limited to the deficit. -/
def recycleQuestions (db : DB) (cat subj : String) (st : Option String)
    (excludeIds : List String) (count : Nat) : List Question :=
  (db.questions.filter (fun q =>
    q.test_category == cat && q.subject == subj &&
      !(excludeIds.contains q.question_id) &&
      (match st with
       | none => true
       | some s => q.subtype == some s))).take count

/-- The three-tier question assembly of create_new_session: tier 1 (forced
"hard" distribution), then, only if short, tier 2 (no difficulty constraint,
deduplicated), then, only if still short, tier 3 (recycling).  The final
random.shuffle of the source is a permutation and is modelled as the identity
one; no theorem below depends on the order of the assembled list. -/
def assembleQuestions (db : DB) (uid cat subj : String) (count : Nat)
    (st : Option String) : List Question :=
  let qs1 := (primarySelection db uid cat subj count st).questions
  let qs2 :=
    if qs1.length < count then
      secondaryMerge qs1
        (selectNewQuestions db uid cat subj (count - qs1.length) none st).questions
    else qs1
  if qs2.length < count then
    qs2 ++ recycleQuestions db cat subj st (qs2.map (fun q => q.question_id)) (count - qs2.length)
  else qs2

/-- The outcome of create_new_session. -/
inductive CreateResult where
  | insufficient (available needed : Nat)
  | created (session_id : String) (total_questions : Nat) (question_ids : List String)
deriving DecidableEq

/-- SessionManager.create_new_session: assemble the three tiers, fail with
insufficient_questions only when nothing at all was found, otherwise persist
the session in created status (with the session type and mode remapped to the
values the database constraints accept) and mark every included question used.
The generated session id and the clock are parameters. -/
def createNewSession (db : DB) (uid session_type cat subj : String)
    (countArg : Option Nat) (st : Option String) (sid : String) (now : Nat) :
    CreateResult × DB :=
  let count := countArg.getD (defaultQuestionCount cat subj)
  let timeLimit := defaultTimeLimit cat subj
  let prim := primarySelection db uid cat subj count st
  let qs := assembleQuestions db uid cat subj count st
  if qs.isEmpty then
    let avail := if prim.questions.length < count then 0 else prim.total_available
    (.insufficient avail count, db)
  else
    let dbMode := if session_type == "exam" then ("exam") else ("practice")
    let dbSessionType := if session_type == "exam" then ("exam") else ("standard")
    let sess : SessionRec :=
      { session_id := sid, user_id := uid, test_category := cat, subject := subj,
        subtype := st, difficulty := ("mixed"), total_questions := qs.length,
        status := ("created"), mode := dbMode, session_type := dbSessionType,
        time_limit := timeLimit, unanswered_count := qs.length }
    let db1 : DB := { db with sessions := db.sessions ++ [sess] }
    let db2 := markQuestionsUsed db1 (qs.map (fun q => q.question_id)) uid sid now
    (.created sid qs.length (qs.map (fun q => q.question_id)), db2)

/-- The outcome of submit_answer. -/
inductive AnswerResult where
  | questionNotFound
  | answered (is_correct : Bool) (correct_answer : Option String) (explanation : Option String)
deriving DecidableEq

/-- The correctness comparison of submit_answer: exact match against the
stored correct answer; a null correct answer never matches. -/
def answerMatches (ans : String) (q : Question) : Bool :=
  match q.correct_answer with
  | some ca => ans == ca
  | none => false

/-- Update the first row matching the session and question, as the
.first() lookup followed by in-place mutation does; when no row matches the
list is returned unchanged. -/
def updateFirstUsage (l : List Usage) (sid qid : String) (f : Usage → Usage) : List Usage :=
  match l with
  | [] => []
  | u :: rest =>
    if u.session_id == sid && u.question_id == qid then f u :: rest
    else u :: updateFirstUsage rest sid qid f

/-- SessionManager.submit_answer: look up the question, grade the answer,
and write the answer fields onto the matching UsageRecord when one exists.
No session status is consulted, and a missing UsageRecord is skipped without
any error and without creating a row. -/
def submitAnswer (db : DB) (sid qid ans : String) (time_spent : Option Nat) :
    AnswerResult × DB :=
  match db.questions.find? (fun q => q.question_id == qid) with
  | none => (.questionNotFound, db)
  | some q =>
    let isCorrect := answerMatches ans q
    let db1 : DB :=
      { db with usages := updateFirstUsage db.usages sid qid (fun u =>
          { u with user_answered := true, user_answer := some ans,
                   was_correct := isCorrect,
                   time_spent :=
                     match time_spent with
                     | some t => some t
                     | none => u.time_spent }) }
    (.answered isCorrect q.correct_answer q.explanation, db1)

/-- The outcome of complete_session. -/
inductive CompleteResult where
  | sessionNotFound
  | completed (total correct incorrect unanswered : Nat) (score : ℚ)
deriving DecidableEq

/-- All UsageRecords of one session. -/
def sessionUsages (db : DB) (sid : String) : List Usage :=
  db.usages.filter (fun u => u.session_id == sid)

/-- The empirical correct-rate recomputation of complete_session: correct
answered attempts over all answered attempts for the question, across every
session ever. -/
def questionCorrectRate (db : DB) (qid : String) : ℚ :=
  let a := db.usages.filter (fun u => u.question_id == qid && u.user_answered)
  if a.length = 0 then 0
  else ((a.countP (fun u => u.was_correct) : Nat) : ℚ) / ((a.length : Nat) : ℚ)

/-- The in-place row update complete_session performs on the session: final
counts, score, completion timestamp, status flipped to completed. -/
def completeSessionRow (c i unanswered : Nat) (score : ℚ) (now : Nat)
    (s : SessionRec) : SessionRec :=
  { s with status := ("completed"), completed_at := some now,
           correct_count := c, incorrect_count := i,
           unanswered_count := unanswered, score := some score }

/-- SessionManager.complete_session: aggregate the UsageRecords of the
session, write the final counts, score and timestamp, flip the status to
completed, and recompute each answered question global correct-rate.  The Nat
subtraction reproduces the floor-at-zero of the source. -/
def completeSession (db : DB) (sid : String) (now : Nat) : CompleteResult × DB :=
  match db.sessions.find? (fun s => s.session_id == sid) with
  | none => (.sessionNotFound, db)
  | some sess =>
    let recs := sessionUsages db sid
    let c := recs.countP (fun u => u.was_correct)
    let i := recs.countP (fun u => u.user_answered && !u.was_correct)
    let unanswered := sess.total_questions - (c + i)
    let score : ℚ :=
      if 0 < sess.total_questions then
        ((c : Nat) : ℚ) / ((sess.total_questions : Nat) : ℚ) * 100
      else 0
    let answeredIds := (recs.filter (fun u => u.user_answered)).map (fun u => u.question_id)
    let db1 : DB :=
      { db with
        sessions := db.sessions.map (fun s =>
          if s.session_id == sid then completeSessionRow c i unanswered score now s
          else s),
        questions := db.questions.map (fun q =>
          if answeredIds.contains q.question_id then
            { q with correct_rate := some (questionCorrectRate db q.question_id) }
          else q) }
    (.completed sess.total_questions c i unanswered score, db1)

/-- The outcome of the submit endpoint. -/
inductive SubmitResult where
  | sessionNotFound
  | alreadyCompleted
  | internalError
  | completed (total correct incorrect unanswered : Nat) (score : ℚ)
deriving DecidableEq

/-- Whether the submit endpoint reported a completed session. -/
def SubmitResult.isSuccess : SubmitResult → Bool
  | .completed _ _ _ _ _ => true
  | _ => false

/-- The owner-scoped session lookup of the sessions router. -/
def findSessionOwned (db : DB) (sid uid : String) : Option SessionRec :=
  db.sessions.find? (fun s => s.session_id == sid && s.user_id == uid)

/-- The POST sessions submit endpoint (submit_session in
src/routers/sessions.py): resolve the session scoped to the requesting user,
reject with a 400 when the status is already selesai or completed, and only
otherwise delegate to complete_session. -/
def submitSession (db : DB) (sid uid : String) (now : Nat) : SubmitResult × DB :=
  match findSessionOwned db sid uid with
  | none => (.sessionNotFound, db)
  | some sess =>
    if sess.status == "selesai" || sess.status == "completed" then (.alreadyCompleted, db)
    else
      match completeSession db sid now with
      | (.sessionNotFound, db1) => (.internalError, db1)
      | (.completed t c i u sc, db1) => (.completed t c i u sc, db1)

/-- The outcome of the delete endpoint. -/
inductive DeleteResult where
  | sessionNotFound
  | deleted
deriving DecidableEq

/-- The DELETE sessions endpoint (delete_session in src/routers/sessions.py):
delete the owner-scoped session row; the schema foreign key on
question_usage.session_id declares ondelete CASCADE, so every UsageRecord of
the session is removed with it. -/
def deleteSession (db : DB) (sid uid : String) : DeleteResult × DB :=
  match findSessionOwned db sid uid with
  | none => (.sessionNotFound, db)
  | some _ =>
    (.deleted,
      { db with
        sessions := db.sessions.filter (fun s => !(s.session_id == sid)),
        usages := db.usages.filter (fun u => !(u.session_id == sid)) })

/-! ## Feedback / Quality Tracker (src/core/feedback_quality_tracker.py) -/

/-- The minimum answered-attempt sample size set in the tracker constructor. -/
def minUsageForEvaluation : Nat := 10

/-- The low correct-rate threshold, 0.30. -/
def minCorrectRate : ℚ := 3 / 10

/-- The high correct-rate threshold, 0.95. -/
def maxCorrectRate : ℚ := 19 / 20

/-- The quality-score floor, 0.60, written inline in the low-quality check. -/
def qualityFloor : ℚ := 3 / 5

/-- FeedbackQualityTracker.update_question_statistics: when the question has
at least one answered UsageRecord, overwrite its usage_count with the number
of answered attempts and its correct_rate with the answered correct ratio. -/
def updateQuestionStatistics (db : DB) (qid : String) : DB :=
  match db.questions.find? (fun q => q.question_id == qid) with
  | none => db
  | some _ =>
    let recs := db.usages.filter (fun u => u.question_id == qid && u.user_answered)
    if recs.isEmpty then db
    else
      let total := recs.length
      let correct := recs.countP (fun u => u.was_correct)
      { db with questions := db.questions.map (fun q =>
          if q.question_id == qid then
            { q with usage_count := some total,
                     correct_rate := some (((correct : Nat) : ℚ) / ((total : Nat) : ℚ)) }
          else q) }

/-- The evaluation dictionary of evaluate_question_performance.  The source
appends one formatted message per firing branch to reasons; the model records
the branch tags, which carries the same structure (which checks fired and how
many reasons were collected). -/
structure Evaluation where
  usage_count : Nat
  correct_rate : ℚ
  quality_score : ℚ
  should_retire : Bool
  status : String
  reasons : List String
deriving DecidableEq

/-- The if / elif / elif / elif judgement chain of
evaluate_question_performance on the coalesced stored values: insufficient
data below the minimum sample, else too_difficult, else too_easy (strictly
above the threshold), else low_quality, else performing_well.  Being an
elif chain, at most one branch fires and at most one reason is recorded. -/
def evalThresholds (uc : Nat) (cr qs : ℚ) : Evaluation :=
  if uc < minUsageForEvaluation then
    { usage_count := uc, correct_rate := cr, quality_score := qs,
      should_retire := false, status := ("insufficient_data"),
      reasons := [("insufficient_data")] }
  else if cr < minCorrectRate then
    { usage_count := uc, correct_rate := cr, quality_score := qs,
      should_retire := true, status := ("too_difficult"),
      reasons := [("too_difficult")] }
  else if maxCorrectRate < cr then
    { usage_count := uc, correct_rate := cr, quality_score := qs,
      should_retire := true, status := ("too_easy"),
      reasons := [("too_easy")] }
  else if qs < qualityFloor then
    { usage_count := uc, correct_rate := cr, quality_score := qs,
      should_retire := true, status := ("low_quality"),
      reasons := [("low_quality")] }
  else
    { usage_count := uc, correct_rate := cr, quality_score := qs,
      should_retire := false, status := ("performing_well"),
      reasons := [] }

/-- FeedbackQualityTracker.evaluate_question_performance: refresh the
statistics, re-read the question, and judge the coalesced stored values
through the threshold chain. -/
def evalQuestionPerformance (db : DB) (qid : String) : Option Evaluation :=
  match db.questions.find? (fun q => q.question_id == qid) with
  | none => none
  | some _ =>
    let db1 := updateQuestionStatistics db qid
    match db1.questions.find? (fun q => q.question_id == qid) with
    | none => none
    | some q =>
      some (evalThresholds (q.usage_count.getD 0) (q.correct_rate.getD 0)
        (q.quality_score.getD 0))

/-! ## Helper lemmas about the Selector -/

/-- A question delivered by a bucket satisfies the bucket WHERE clause. -/
theorem mem_of_mem_selectBucket {db : DB} {usedIds : List String} {cat subj : String}
    {st : Option String} {d : String} {n : Nat} {q : Question}
    (h : q ∈ selectBucket db usedIds cat subj st d n) :
    matchesBucket cat subj st d usedIds q = true := by
  have h1 : q ∈ sortByUsage (db.questions.filter (matchesBucket cat subj st d usedIds)) :=
    List.mem_of_mem_take h
  have h2 : q ∈ db.questions.filter (matchesBucket cat subj st d usedIds) := by
    simpa [sortByUsage, List.mem_insertionSort] using h1
  exact List.of_mem_filter h2

/-- Membership in the accumulating fold that concatenates the buckets. -/
theorem mem_foldl_append {α β : Type} (f : β → List α) :
    ∀ (dist : List β) (acc : List α) (q : α),
      q ∈ dist.foldl (fun acc p => acc ++ f p) acc → q ∈ acc ∨ ∃ p ∈ dist, q ∈ f p
  | [], _, _, h => Or.inl h
  | p :: rest, acc, q, h => by
    rcases mem_foldl_append f rest (acc ++ f p) q h with h1 | h2
    · rcases List.mem_append.1 h1 with h3 | h4
      · exact Or.inl h3
      · exact Or.inr ⟨p, List.mem_cons_self p rest, h4⟩
    · rcases h2 with ⟨p2, hp2, hq2⟩
      exact Or.inr ⟨p2, List.mem_cons_of_mem p hp2, hq2⟩

/-- Every usage row of the user contributes its question id to the lifetime
exclusion set. -/
theorem mem_usedQuestionIds {db : DB} {uid : String} {u : Usage}
    (hu : u ∈ db.usages) (huid : u.user_id = uid) :
    u.question_id ∈ usedQuestionIds db uid := by
  unfold usedQuestionIds
  exact List.mem_map_of_mem _ (List.mem_filter.2 ⟨hu, by simp [huid]⟩)

/-- In a list sorted by usage key, whenever at least k entries have key zero,
the first k entries all have key zero. -/
theorem take_key_zero_of_sorted :
    ∀ (l : List Question) (k : Nat),
      List.Sorted usageLe l →
      k ≤ l.countP (fun q => usageKey q == 0) →
      ∀ q ∈ l.take k, usageKey q = 0
  | [], _, _, _, _, hq => by simp at hq
  | x :: t, 0, _, _, _, hq => by simp at hq
  | x :: t, k + 1, hs, hk, q, hq => by
    rw [List.sorted_cons] at hs
    by_cases hx : usageKey x = 0
    · rcases List.mem_cons.1 (by simpa [List.take_succ_cons] using hq) with h | h
      · rw [h, hx]
      · refine take_key_zero_of_sorted t k hs.2 ?_ q h
        have : (x :: t).countP (fun q => usageKey q == 0) =
            t.countP (fun q => usageKey q == 0) + 1 := by
          simp [List.countP_cons, hx]
        omega
    · exfalso
      have hz : (x :: t).countP (fun q => usageKey q == 0) = 0 := by
        rw [List.countP_eq_zero]
        intro a ha
        rcases List.mem_cons.1 ha with h | h
        · simp [h, hx]
        · have hle : usageKey x ≤ usageKey a := hs.1 a h
          have : usageKey a ≠ 0 := by omega
          simp [this]
      omega

/-! ## Claim C1 -/

/-- C1.  Every question returned by the fresh-selection operation
select_new_questions avoids every question id appearing in any UsageRecord of
the requesting user, however old the record is: the exclusion set is the
lifetime set of used question ids, with no recency window. -/
theorem selectNewQuestions_never_repeats
    (db : DB) (uid cat subj : String) (count : Nat)
    (dist : Option (List (String × Nat))) (st : Option String)
    (q : Question) (u : Usage)
    (hq : q ∈ (selectNewQuestions db uid cat subj count dist st).questions)
    (hu : u ∈ db.usages) (huid : u.user_id = uid) :
    u.question_id ≠ q.question_id := by
  have hq2 : q ∈ (match dist with
      | none => defaultDistribution count
      | some [] => defaultDistribution count
      | some ds => ds).foldl
        (fun (acc : List Question) (p : String × Nat) =>
          acc ++ selectBucket db (usedQuestionIds db uid) cat subj st p.1 p.2)
        [] := by
    simpa [selectNewQuestions] using hq
  rcases mem_foldl_append _ _ _ _ hq2 with h | ⟨p, _, hqb⟩
  · simp at h
  · have hm := mem_of_mem_selectBucket hqb
    intro heq
    have hin : q.question_id ∈ usedQuestionIds db uid := heq ▸ mem_usedQuestionIds hu huid
    simp only [matchesBucket, Bool.and_eq_true, Bool.not_eq_true'] at hm
    have hc : (usedQuestionIds db uid).contains q.question_id = true :=
      List.contains_iff_exists_mem_beq.2 ⟨q.question_id, hin, by simp⟩
    rw [hm.1.2] at hc
    cases hc

/-- Concrete witness data for C1: a bank with one fresh question and one the
user has already seen. -/
def qFreshC1 : Question :=
  { question_id := ("q_fresh"), test_category := ("cpns"), subject := ("tiu"),
    difficulty := ("mudah"), usage_count := some 0 }

/-- The question the C1 witness user has already seen. -/
def qSeenC1 : Question :=
  { question_id := ("q_seen"), test_category := ("cpns"), subject := ("tiu"),
    difficulty := ("mudah"), usage_count := some 1 }

/-- The usage row recording that the C1 witness user saw q_seen. -/
def usageC1 : Usage :=
  { usage_id := 0, question_id := ("q_seen"), user_id := ("u1"),
    session_id := ("s0"), used_at := 0 }

/-- The store of the C1 witness. -/
def dbC1 : DB := { questions := [qFreshC1, qSeenC1], usages := [usageC1], sessions := [] }

/-- Witness for C1: on the concrete store, the selection returns the fresh
question, the usage row belongs to the user, and the theorem yields that the
ids differ. -/
theorem selectNewQuestions_never_repeats_witness :
    qFreshC1 ∈ (selectNewQuestions dbC1 ("u1") ("cpns") ("tiu") 1
        (some [(("mudah"), 1)]) none).questions ∧
    usageC1 ∈ dbC1.usages ∧ usageC1.user_id = ("u1") ∧
    usageC1.question_id ≠ qFreshC1.question_id :=
  ⟨by decide, by decide, by decide,
    selectNewQuestions_never_repeats dbC1 ("u1") ("cpns") ("tiu") 1
      (some [(("mudah"), 1)]) none qFreshC1 usageC1 (by decide) (by decide) (by decide)⟩

/-! ## Claim C8 -/

/-- The number of zero-usage candidates of one eligible bucket (questions
whose coalesced global usage_count is zero). -/
def zeroUsageCount (db : DB) (uid cat subj : String) (st : Option String) (d : String) : Nat :=
  (db.questions.filter (matchesBucket cat subj st d (usedQuestionIds db uid))).countP
    (fun q => usageKey q == 0)

/-- C8.  Within an eligible bucket the fresh selection orders candidates by
global usage_count ascending with the tie-break only permuting equal counts,
so whenever the bucket holds at least k zero-usage candidates, a fresh-only
selection of k returns exclusively zero-usage questions. -/
theorem selectNewQuestions_zero_usage_first
    (db : DB) (uid cat subj : String) (st : Option String) (d : String) (k : Nat)
    (q : Question)
    (hk : k ≤ zeroUsageCount db uid cat subj st d)
    (hq : q ∈ (selectNewQuestions db uid cat subj k (some [(d, k)]) st).questions) :
    usageKey q = 0 := by
  have hq2 : q ∈ (sortByUsage (db.questions.filter
      (matchesBucket cat subj st d (usedQuestionIds db uid)))).take k := by
    simpa [selectNewQuestions, selectBucket] using hq
  refine take_key_zero_of_sorted _ k ?_ ?_ q hq2
  · exact List.sorted_insertionSort usageLe _
  · calc k ≤ zeroUsageCount db uid cat subj st d := hk
      _ = _ := ((List.perm_insertionSort usageLe _).countP_eq _).symm

/-- Question builder for the C8 witness bucket. -/
def mkQC8 (id : String) (uc : Nat) : Question :=
  { question_id := id, test_category := ("cpns"), subject := ("tiu"),
    difficulty := ("sedang"), usage_count := some uc }

/-- The C8 witness store: ten never-used and ten once-used questions in the
same eligible bucket, none seen by the user. -/
def dbC8 : DB :=
  { questions :=
      [mkQC8 ("z01") 0, mkQC8 ("z02") 0, mkQC8 ("z03") 0, mkQC8 ("z04") 0,
       mkQC8 ("z05") 0, mkQC8 ("z06") 0, mkQC8 ("z07") 0, mkQC8 ("z08") 0,
       mkQC8 ("z09") 0, mkQC8 ("z10") 0, mkQC8 ("o01") 1, mkQC8 ("o02") 1,
       mkQC8 ("o03") 1, mkQC8 ("o04") 1, mkQC8 ("o05") 1, mkQC8 ("o06") 1,
       mkQC8 ("o07") 1, mkQC8 ("o08") 1, mkQC8 ("o09") 1, mkQC8 ("o10") 1],
    usages := [], sessions := [] }

/-- Witness for C8: with ten zero-usage and ten once-used candidates, a
fresh-only selection of five contains a selected question and the theorem
yields that it is zero-usage. -/
theorem selectNewQuestions_zero_usage_first_witness :
    5 ≤ zeroUsageCount dbC8 ("u1") ("cpns") ("tiu") none ("sedang") ∧
    mkQC8 ("z01") 0 ∈ (selectNewQuestions dbC8 ("u1") ("cpns") ("tiu") 5
        (some [(("sedang"), 5)]) none).questions ∧
    usageKey (mkQC8 ("z01") 0) = 0 :=
  ⟨by decide, by decide,
    selectNewQuestions_zero_usage_first dbC8 ("u1") ("cpns") ("tiu") none ("sedang") 5
      (mkQC8 ("z01") 0) (by decide) (by decide)⟩

/-! ## Claim C3 -/

/-- Searching a mapped list with a predicate the mapping preserves finds the
image of the original hit. -/
theorem find?_map_of_pred_invariant {α : Type} (l : List α) (p : α → Bool) (F : α → α)
    (hp : ∀ a, p (F a) = p a) (a : α) (h : l.find? p = some a) :
    (l.map F).find? p = some (F a) := by
  rw [List.find?_map]
  have hcomp : (p ∘ F) = p := funext hp
  rw [hcomp, h]
  rfl

/-- After complete_session runs on a session the owner can look up, the
owner-scoped lookup still succeeds and the stored status is completed. -/
theorem findOwned_after_complete
    (db : DB) (sid uid : String) (now : Nat) (sess : SessionRec)
    (hf : findSessionOwned db sid uid = some sess) :
    ∃ s2, findSessionOwned (completeSession db sid now).2 sid uid = some s2 ∧
      s2.status = ("completed") := by
  have hsid : (sess.session_id == sid) = true := by
    have hp := List.find?_some hf
    simp only [Bool.and_eq_true] at hp
    exact hp.1
  have hs0 : ∃ s0, db.sessions.find? (fun s => s.session_id == sid) = some s0 := by
    have hsome : (db.sessions.find? (fun s => s.session_id == sid)).isSome := by
      rw [List.find?_isSome]
      exact ⟨sess, List.mem_of_find?_eq_some hf, hsid⟩
    exact Option.isSome_iff_exists.mp hsome
  obtain ⟨s0, hs0⟩ := hs0
  simp only [completeSession, hs0, findSessionOwned]
  refine ⟨_, find?_map_of_pred_invariant db.sessions _ _ (fun s => ?_) sess hf, ?_⟩
  · by_cases h : (s.session_id == sid) = true <;> simp [h, completeSessionRow]
  · simp [hsid, completeSessionRow]

/-- The submit endpoint rejects any session whose stored status is already
completed, leaving the store untouched. -/
theorem submitSession_rejects_completed
    (db : DB) (sid uid : String) (now : Nat) (sess : SessionRec)
    (hf : findSessionOwned db sid uid = some sess)
    (hst : sess.status = ("completed")) :
    submitSession db sid uid now = (SubmitResult.alreadyCompleted, db) := by
  simp [submitSession, hf, hst]

/-- C3.  A second call of the submit endpoint on the same session is
rejected as already completed and leaves the stored state, hence the stored
correct, incorrect and unanswered counts, the score and the completion
timestamp, exactly as the first call left them. -/
theorem submitSession_second_call_rejected
    (db : DB) (sid uid : String) (t1 t2 : Nat)
    (h : ((submitSession db sid uid t1).1).isSuccess = true) :
    submitSession (submitSession db sid uid t1).2 sid uid t2 =
      (SubmitResult.alreadyCompleted, (submitSession db sid uid t1).2) := by
  cases hf : findSessionOwned db sid uid with
  | none =>
    rw [show submitSession db sid uid t1 = (.sessionNotFound, db) by
      simp [submitSession, hf]] at h
    simp [SubmitResult.isSuccess] at h
  | some sess =>
    by_cases hb : (sess.status == ("selesai") || sess.status == ("completed")) = true
    · rw [show submitSession db sid uid t1 = (.alreadyCompleted, db) by
        simp [submitSession, hf, hb]] at h
      simp [SubmitResult.isSuccess] at h
    · have hsid : (sess.session_id == sid) = true := by
        have hp := List.find?_some hf
        simp only [Bool.and_eq_true] at hp
        exact hp.1
      have hs0 : ∃ s0, db.sessions.find? (fun s => s.session_id == sid) = some s0 := by
        have hsome : (db.sessions.find? (fun s => s.session_id == sid)).isSome := by
          rw [List.find?_isSome]
          exact ⟨sess, List.mem_of_find?_eq_some hf, hsid⟩
        exact Option.isSome_iff_exists.mp hsome
      obtain ⟨s0, hs0⟩ := hs0
      rcases hcs : completeSession db sid t1 with ⟨r, db1⟩
      cases r with
      | sessionNotFound =>
        exfalso
        have hfst : (completeSession db sid t1).1 = CompleteResult.sessionNotFound := by
          rw [hcs]
        simp [completeSession, hs0] at hfst
      | completed tq c i un sc =>
        have hX : submitSession db sid uid t1 = (SubmitResult.completed tq c i un sc, db1) := by
          simp [submitSession, hf, hb, hcs]
        have hdb1 : db1 = (completeSession db sid t1).2 := by rw [hcs]
        rw [hX]
        obtain ⟨s2, hfind, hstat⟩ := findOwned_after_complete db sid uid t1 sess hf
        rw [hdb1]
        exact submitSession_rejects_completed _ sid uid t2 s2 hfind hstat

/-- The C3 witness store: one startable session of one question, owned by the
user, with its single unanswered usage row. -/
def dbC3 : DB :=
  { questions := [],
    usages := [{ usage_id := 0, question_id := ("q1"), user_id := ("u1"),
                 session_id := ("s1"), used_at := 0 }],
    sessions := [{ session_id := ("s1"), user_id := ("u1"), test_category := ("cpns"),
                   subject := ("tiu"), difficulty := ("mixed"), total_questions := 1,
                   status := ("created") }] }

/-- Witness for C3: on the concrete store the first submit succeeds, and the
theorem yields that the second submit is rejected with the state unchanged. -/
theorem submitSession_second_call_rejected_witness :
    ((submitSession dbC3 ("s1") ("u1") 5).1).isSuccess = true ∧
    submitSession (submitSession dbC3 ("s1") ("u1") 5).2 ("s1") ("u1") 9 =
      (SubmitResult.alreadyCompleted, (submitSession dbC3 ("s1") ("u1") 5).2) :=
  ⟨by decide, submitSession_second_call_rejected dbC3 ("s1") ("u1") 5 9 (by decide)⟩

/-! ## Claim C7 -/

/-- C7.  For a session of n > 0 questions, complete_session reports the
number of correctly answered records, the number of answered-but-wrong
records, the remainder floored at zero as unanswered, and the score
correct / n * 100.  The consistency hypothesis, maintained by every writer
of the store, says a record marked correct was answered. -/
theorem completeSession_score_formula
    (db : DB) (sid : String) (now : Nat) (sess : SessionRec) (n : Nat)
    (hf : db.sessions.find? (fun s => s.session_id == sid) = some sess)
    (hn : sess.total_questions = n) (hpos : 0 < n)
    (hconsist : ∀ u ∈ db.usages, u.was_correct = true → u.user_answered = true) :
    (completeSession db sid now).1 =
      CompleteResult.completed n
        ((sessionUsages db sid).countP (fun u => u.user_answered && u.was_correct))
        ((sessionUsages db sid).countP (fun u => u.user_answered && !u.was_correct))
        (n - ((sessionUsages db sid).countP (fun u => u.user_answered && u.was_correct) +
              (sessionUsages db sid).countP (fun u => u.user_answered && !u.was_correct)))
        ((((sessionUsages db sid).countP
            (fun u => u.user_answered && u.was_correct) : Nat) : ℚ) / (n : ℚ) * 100) := by
  have hcc : (sessionUsages db sid).countP (fun u => u.was_correct) =
      (sessionUsages db sid).countP (fun u => u.user_answered && u.was_correct) := by
    refine List.countP_congr (fun u hu => ?_)
    have hmem : u ∈ db.usages := List.mem_of_mem_filter hu
    constructor
    · intro h
      simp only [Bool.and_eq_true]
      exact ⟨hconsist u hmem h, h⟩
    · intro h
      simp only [Bool.and_eq_true] at h
      exact h.2
  simp only [completeSession, hf, hn, hpos, if_pos, hcc]

/-- The session row of the C7 witness: ten questions, still in progress. -/
def sessC7 : SessionRec :=
  { session_id := ("s1"), user_id := ("u1"), test_category := ("cpns"),
    subject := ("tiu"), difficulty := ("mixed"), total_questions := 10,
    status := ("in_progress") }

/-- One usage row of the C7 witness session. -/
def mkUC7 (k : Nat) (answered correct : Bool) : Usage :=
  { usage_id := k, question_id := ("q") ++ toString k, user_id := ("u1"),
    session_id := ("s1"), used_at := 0, user_answered := answered,
    user_answer := if answered then some ("A") else none, was_correct := correct }

/-- The C7 witness store: ten usage rows, seven answered correctly, two
answered wrongly, one unanswered. -/
def dbC7 : DB :=
  { questions := [],
    usages :=
      [mkUC7 0 true true, mkUC7 1 true true, mkUC7 2 true true, mkUC7 3 true true,
       mkUC7 4 true true, mkUC7 5 true true, mkUC7 6 true true,
       mkUC7 7 true false, mkUC7 8 true false, mkUC7 9 false false],
    sessions := [sessC7] }

/-- Witness for C7: the spec round-trip example, 7 correct, 2 incorrect,
1 unanswered out of 10, scores exactly 70. -/
theorem completeSession_score_formula_witness :
    dbC7.sessions.find? (fun s => s.session_id == ("s1")) = some sessC7 ∧
    sessC7.total_questions = 10 ∧ 0 < 10 ∧
    (completeSession dbC7 ("s1") 99).1 = CompleteResult.completed 10 7 2 1 70 :=
  ⟨by decide, by decide, by decide, by
    rw [completeSession_score_formula dbC7 ("s1") 99 sessC7 10 (by decide) (by decide)
      (by decide) (by decide)]
    have h1 : (sessionUsages dbC7 ("s1")).countP
        (fun u => u.user_answered && u.was_correct) = 7 := by decide
    have h2 : (sessionUsages dbC7 ("s1")).countP
        (fun u => u.user_answered && !u.was_correct) = 2 := by decide
    rw [h1, h2]
    norm_num⟩

/-! ## Helper lemmas about the Feedback Tracker -/

/-- Evaluation pipeline on a single-question store whose usage rows all
belong to that question and are all answered: the statistics refresh installs
the answered count and the answered correct ratio, and the threshold chain
judges them together with the stored quality score. -/
theorem evalQuestionPerformance_single
    (db : DB) (qid : String) (q : Question) (total correct : Nat)
    (hq : db.questions = [q]) (hqid : q.question_id = qid)
    (hfla : db.usages.filter (fun u => u.question_id == qid && u.user_answered) = db.usages)
    (hne : db.usages.isEmpty = false)
    (hlen : db.usages.length = total)
    (hcnt : db.usages.countP (fun u => u.was_correct) = correct) :
    evalQuestionPerformance db qid =
      some (evalThresholds total ((correct : ℚ) / (total : ℚ)) (q.quality_score.getD 0)) := by
  have hbeq : (q.question_id == qid) = true := by simp [hqid]
  have hfind : db.questions.find? (fun x => x.question_id == qid) = some q := by
    rw [hq]
    simp [List.find?_cons, hbeq]
  have hupd : updateQuestionStatistics db qid =
      { db with questions := [({ q with
          usage_count := some total,
          correct_rate := some ((correct : ℚ) / (total : ℚ)) } : Question)] } := by
    simp only [updateQuestionStatistics, hfind, hfla, hne, hlen, hcnt, hq,
      Bool.false_eq_true, if_false, List.map_cons, List.map_nil, hbeq, if_true]
    simp [List.find?_cons_of_pos, hbeq]
  have hfind2 : (updateQuestionStatistics db qid).questions.find?
      (fun x => x.question_id == qid) =
      some ({ q with
          usage_count := some total,
          correct_rate := some ((correct : ℚ) / (total : ℚ)) } : Question) := by
    rw [hupd]
    simp [List.find?_cons, hbeq]
  simp only [evalQuestionPerformance, hfind, hfind2, Option.getD_some]

/-- Branch fact: below the minimum sample the chain reports insufficient
data and advises no retirement. -/
theorem evalThresholds_insufficient (uc : Nat) (cr qs : ℚ)
    (h : uc < minUsageForEvaluation) :
    evalThresholds uc cr qs =
      { usage_count := uc, correct_rate := cr, quality_score := qs,
        should_retire := false, status := ("insufficient_data"),
        reasons := [("insufficient_data")] } := by
  simp [evalThresholds, h]

/-- Branch fact: a low correct-rate at sufficient sample fires the
too_difficult branch. -/
theorem evalThresholds_too_difficult (uc : Nat) (cr qs : ℚ)
    (h1 : ¬ uc < minUsageForEvaluation) (h2 : cr < minCorrectRate) :
    evalThresholds uc cr qs =
      { usage_count := uc, correct_rate := cr, quality_score := qs,
        should_retire := true, status := ("too_difficult"),
        reasons := [("too_difficult")] } := by
  simp [evalThresholds, h1, h2]

/-- Branch fact: a correct-rate strictly above the high threshold fires the
too_easy branch. -/
theorem evalThresholds_too_easy (uc : Nat) (cr qs : ℚ)
    (h1 : ¬ uc < minUsageForEvaluation) (h2 : ¬ cr < minCorrectRate)
    (h3 : maxCorrectRate < cr) :
    evalThresholds uc cr qs =
      { usage_count := uc, correct_rate := cr, quality_score := qs,
        should_retire := true, status := ("too_easy"),
        reasons := [("too_easy")] } := by
  simp [evalThresholds, h1, h2, h3]

/-- Branch fact: when none of the rate branches fire and the quality score
is at or above the floor, the chain reports performing_well. -/
theorem evalThresholds_performing_well (uc : Nat) (cr qs : ℚ)
    (h1 : ¬ uc < minUsageForEvaluation) (h2 : ¬ cr < minCorrectRate)
    (h3 : ¬ maxCorrectRate < cr) (h4 : ¬ qs < qualityFloor) :
    evalThresholds uc cr qs =
      { usage_count := uc, correct_rate := cr, quality_score := qs,
        should_retire := false, status := ("performing_well"), reasons := [] } := by
  simp [evalThresholds, h1, h2, h3, h4]

/-! ## Claims C9 and C10 -/

/-- An answered usage row of question q1 for the tracker examples. -/
def ansU (k : Nat) (c : Bool) : Usage :=
  { usage_id := k, question_id := ("q1"), user_id := ("u1"), session_id := ("s1"),
    used_at := 0, user_answered := true, user_answer := some ("A"), was_correct := c }

/-- The question the tracker examples evaluate, with the given stored
quality score. -/
def qEval (qs : ℚ) : Question :=
  { question_id := ("q1"), test_category := ("cpns"), subject := ("tiu"),
    difficulty := ("sedang"), quality_score := some qs }

/-- The C9 store: twenty answered attempts, two correct, quality score 0. -/
def dbC9 : DB :=
  { questions := [qEval 0],
    usages :=
      [ansU 0 true, ansU 1 true, ansU 2 false, ansU 3 false,
       ansU 4 false, ansU 5 false, ansU 6 false, ansU 7 false,
       ansU 8 false, ansU 9 false, ansU 10 false, ansU 11 false,
       ansU 12 false, ansU 13 false, ansU 14 false, ansU 15 false,
       ansU 16 false, ansU 17 false, ansU 18 false, ansU 19 false],
    sessions := [] }

/-- The evaluation of the C9 store. -/
def evC9 : Evaluation :=
  { usage_count := 20, correct_rate := ((2 : Nat) : ℚ) / ((20 : Nat) : ℚ),
    quality_score := 0, should_retire := true, status := ("too_difficult"),
    reasons := [("too_difficult")] }

/-- Evaluating the C9 store fires only the too_difficult branch. -/
theorem evalC9_eq : evalQuestionPerformance dbC9 ("q1") = some evC9 := by
  rw [evalQuestionPerformance_single dbC9 ("q1") (qEval 0) 20 2 rfl rfl (by decide)
    (by decide) (by decide) (by decide)]
  rw [show (qEval 0).quality_score.getD 0 = 0 from rfl]
  rw [evalThresholds_too_difficult 20 _ _ (by norm_num [minUsageForEvaluation])
    (by norm_num [minCorrectRate])]
  rfl

/-- The C10 store with twenty answered attempts and three correct. -/
def dbC10a : DB :=
  { questions := [qEval 1],
    usages :=
      [ansU 0 true, ansU 1 true, ansU 2 true, ansU 3 false,
       ansU 4 false, ansU 5 false, ansU 6 false, ansU 7 false,
       ansU 8 false, ansU 9 false, ansU 10 false, ansU 11 false,
       ansU 12 false, ansU 13 false, ansU 14 false, ansU 15 false,
       ansU 16 false, ansU 17 false, ansU 18 false, ansU 19 false],
    sessions := [] }

/-- The C10 store with five answered attempts. -/
def dbC10b : DB :=
  { questions := [qEval 1],
    usages :=
      [ansU 0 true, ansU 1 true, ansU 2 true, ansU 3 false,
       ansU 4 false],
    sessions := [] }

/-- The C10 store with twenty answered attempts and nineteen correct. -/
def dbC10c : DB :=
  { questions := [qEval 1],
    usages :=
      [ansU 0 true, ansU 1 true, ansU 2 true, ansU 3 true,
       ansU 4 true, ansU 5 true, ansU 6 true, ansU 7 true,
       ansU 8 true, ansU 9 true, ansU 10 true, ansU 11 true,
       ansU 12 true, ansU 13 true, ansU 14 true, ansU 15 true,
       ansU 16 true, ansU 17 true, ansU 18 true, ansU 19 false],
    sessions := [] }

/-- The C10 store with twenty answered attempts, all correct. -/
def dbC10d : DB :=
  { questions := [qEval 1],
    usages :=
      [ansU 0 true, ansU 1 true, ansU 2 true, ansU 3 true,
       ansU 4 true, ansU 5 true, ansU 6 true, ansU 7 true,
       ansU 8 true, ansU 9 true, ansU 10 true, ansU 11 true,
       ansU 12 true, ansU 13 true, ansU 14 true, ansU 15 true,
       ansU 16 true, ansU 17 true, ansU 18 true, ansU 19 true],
    sessions := [] }

/-- The evaluation of the 3-of-20 store. -/
def evC10a : Evaluation :=
  { usage_count := 20, correct_rate := ((3 : Nat) : ℚ) / ((20 : Nat) : ℚ),
    quality_score := 1, should_retire := true, status := ("too_difficult"),
    reasons := [("too_difficult")] }

/-- The evaluation of the 5-attempt store. -/
def evC10b : Evaluation :=
  { usage_count := 5, correct_rate := ((3 : Nat) : ℚ) / ((5 : Nat) : ℚ),
    quality_score := 1, should_retire := false, status := ("insufficient_data"),
    reasons := [("insufficient_data")] }

/-- The evaluation of the 19-of-20 store. -/
def evC10c : Evaluation :=
  { usage_count := 20, correct_rate := ((19 : Nat) : ℚ) / ((20 : Nat) : ℚ),
    quality_score := 1, should_retire := false, status := ("performing_well"),
    reasons := [] }

/-- The evaluation of the 20-of-20 store. -/
def evC10d : Evaluation :=
  { usage_count := 20, correct_rate := ((20 : Nat) : ℚ) / ((20 : Nat) : ℚ),
    quality_score := 1, should_retire := true, status := ("too_easy"),
    reasons := [("too_easy")] }

/-- Evaluating the 3-of-20 store fires too_difficult. -/
theorem evalC10a_eq : evalQuestionPerformance dbC10a ("q1") = some evC10a := by
  rw [evalQuestionPerformance_single dbC10a ("q1") (qEval 1) 20 3 rfl rfl (by decide)
    (by decide) (by decide) (by decide)]
  rw [show (qEval 1).quality_score.getD 0 = 1 from rfl]
  rw [evalThresholds_too_difficult 20 _ _ (by norm_num [minUsageForEvaluation])
    (by norm_num [minCorrectRate])]
  rfl

/-- Evaluating the 5-attempt store reports insufficient data. -/
theorem evalC10b_eq : evalQuestionPerformance dbC10b ("q1") = some evC10b := by
  rw [evalQuestionPerformance_single dbC10b ("q1") (qEval 1) 5 3 rfl rfl (by decide)
    (by decide) (by decide) (by decide)]
  rw [show (qEval 1).quality_score.getD 0 = 1 from rfl]
  rw [evalThresholds_insufficient 5 _ _ (by norm_num [minUsageForEvaluation])]
  rfl

/-- Evaluating the 19-of-20 store (rate exactly 95 percent) reports
performing_well, not too_easy. -/
theorem evalC10c_eq : evalQuestionPerformance dbC10c ("q1") = some evC10c := by
  rw [evalQuestionPerformance_single dbC10c ("q1") (qEval 1) 20 19 rfl rfl (by decide)
    (by decide) (by decide) (by decide)]
  rw [show (qEval 1).quality_score.getD 0 = 1 from rfl]
  rw [evalThresholds_performing_well 20 _ _ (by norm_num [minUsageForEvaluation])
    (by norm_num [minCorrectRate]) (by norm_num [maxCorrectRate])
    (by norm_num [qualityFloor])]
  rfl

/-- Evaluating the 20-of-20 store fires too_easy. -/
theorem evalC10d_eq : evalQuestionPerformance dbC10d ("q1") = some evC10d := by
  rw [evalQuestionPerformance_single dbC10d ("q1") (qEval 1) 20 20 rfl rfl (by decide)
    (by decide) (by decide) (by decide)]
  rw [show (qEval 1).quality_score.getD 0 = 1 from rfl]
  rw [evalThresholds_too_easy 20 _ _ (by norm_num [minUsageForEvaluation])
    (by norm_num [minCorrectRate]) (by norm_num [maxCorrectRate])]
  rfl

/-- C9 counterexample.  On a question with twenty answered attempts at
sufficient sample, both the too_difficult condition and the low_quality
condition hold, yet the evaluation reports only the first firing check:
the reasons list holds the single too_difficult entry, so the checks are an
elif chain and not independent. -/
theorem evalQuestionPerformance_elif_counterexample :
    evalQuestionPerformance dbC9 ("q1") = some evC9 ∧
    minUsageForEvaluation ≤ evC9.usage_count ∧
    evC9.correct_rate < minCorrectRate ∧
    evC9.quality_score < qualityFloor ∧
    evC9.reasons = [("too_difficult")] :=
  ⟨evalC9_eq, by decide, by norm_num [evC9, minCorrectRate],
   by norm_num [evC9, qualityFloor], rfl⟩

/-- C9 as amended.  The retirement checks are evaluated as an elif chain in
the order too_difficult, too_easy, low_quality: only the first check whose
condition holds fires, at most one reason is ever collected, and in
particular a question that is both too difficult and low quality is reported
as too_difficult alone, while low_quality is reported only when neither rate
check fired. -/
theorem evalQuestionPerformance_first_match_only
    (db : DB) (qid : String) (ev : Evaluation)
    (h : evalQuestionPerformance db qid = some ev) :
    ev.reasons.length ≤ 1 ∧
    (minUsageForEvaluation ≤ ev.usage_count → ev.correct_rate < minCorrectRate →
      ev.should_retire = true ∧ ev.status = ("too_difficult") ∧
      ev.reasons = [("too_difficult")]) ∧
    (minUsageForEvaluation ≤ ev.usage_count → ¬ ev.correct_rate < minCorrectRate →
      ¬ maxCorrectRate < ev.correct_rate → ev.quality_score < qualityFloor →
      ev.should_retire = true ∧ ev.status = ("low_quality") ∧
      ev.reasons = [("low_quality")]) := by
  obtain ⟨uc, cr, qs, hev⟩ : ∃ uc cr qs, ev = evalThresholds uc cr qs := by
    unfold evalQuestionPerformance at h
    cases hf1 : db.questions.find? (fun q => q.question_id == qid) with
    | none => rw [hf1] at h; simp at h
    | some q0 =>
      rw [hf1] at h
      cases hf2 : (updateQuestionStatistics db qid).questions.find?
          (fun q => q.question_id == qid) with
      | none => simp [hf2] at h
      | some q1 =>
        simp only [hf2, Option.some.injEq] at h
        exact ⟨_, _, _, h.symm⟩
  subst hev
  unfold evalThresholds
  split_ifs with h1 h2 h3 h4 <;>
    refine ⟨by simp, fun ha hb => ?_, fun ha hb hc hd => ?_⟩ <;>
    simp_all <;> omega

/-- Witness for C9 as amended: the evaluation of the concrete C9 store
satisfies the single-reason bound delivered by the theorem. -/
theorem evalQuestionPerformance_first_match_only_witness :
    evalQuestionPerformance dbC9 ("q1") = some evC9 ∧
    evC9.reasons.length ≤ 1 :=
  ⟨evalC9_eq, (evalQuestionPerformance_first_match_only dbC9 ("q1") evC9 evalC9_eq).1⟩

/-- C10 counterexample.  A question with twenty answered attempts and
nineteen correct sits exactly at the 95 percent threshold; the source
compares with strict greater-than, so it is reported performing_well with no
retirement, not too_easy as the claim states. -/
theorem evalQuestionPerformance_exact95_counterexample :
    evalQuestionPerformance dbC10c ("q1") = some evC10c ∧
    evC10c.correct_rate = maxCorrectRate ∧
    evC10c.status = ("performing_well") ∧
    evC10c.should_retire = false :=
  ⟨evalC10c_eq, by norm_num [evC10c, maxCorrectRate], rfl, rfl⟩

/-- C10 as amended.  Twenty attempts with three correct are flagged
too_difficult; five attempts report insufficient_data with no retirement
regardless of rate; twenty attempts with nineteen correct (exactly 95
percent) are NOT flagged too_easy because the check requires a rate strictly
above the threshold, as twenty of twenty demonstrates by being flagged. -/
theorem evalQuestionPerformance_thresholds :
    evalQuestionPerformance dbC10a ("q1") = some evC10a ∧
    evC10a.status = ("too_difficult") ∧ evC10a.should_retire = true ∧
    evalQuestionPerformance dbC10b ("q1") = some evC10b ∧
    evC10b.status = ("insufficient_data") ∧ evC10b.should_retire = false ∧
    evalQuestionPerformance dbC10c ("q1") = some evC10c ∧
    evC10c.status ≠ ("too_easy") ∧
    evalQuestionPerformance dbC10d ("q1") = some evC10d ∧
    evC10d.status = ("too_easy") ∧ evC10d.should_retire = true :=
  ⟨evalC10a_eq, rfl, rfl, evalC10b_eq, rfl, rfl, evalC10c_eq, by decide,
   evalC10d_eq, rfl, rfl⟩

/-! ## Claim C2 -/

/-- C2 evidence.  Under the schema check constraint on difficulty (every
stored question is mudah, sedang or sulit), the tier-1 primary selection of
create_new_session, which requests the full count at the literal difficulty
"hard", can never match a question and always returns the empty list: the
primary tier never delivers anything, regardless of how many fresh questions
exist at the hardest configured tier sulit. -/
theorem primarySelection_hard_returns_nothing
    (db : DB) (uid cat subj : String) (count : Nat) (st : Option String)
    (hvalid : ∀ q ∈ db.questions,
      q.difficulty = ("mudah") ∨ q.difficulty = ("sedang") ∨ q.difficulty = ("sulit")) :
    (primarySelection db uid cat subj count st).questions = [] := by
  have hfe : db.questions.filter
      (matchesBucket cat subj st ("hard") (usedQuestionIds db uid)) = [] := by
    rw [List.filter_eq_nil_iff]
    intro q hq
    rcases hvalid q hq with h | h | h <;> simp [matchesBucket, h]
  simp [primarySelection, selectNewQuestions, selectBucket, hfe, sortByUsage,
    List.insertionSort]

/-- A question at the hardest configured tier for the C2 witness store. -/
def mkQC2 (id : String) : Question :=
  { question_id := id, test_category := ("cpns"), subject := ("tiu"),
    difficulty := ("sulit") }

/-- The C2 witness store: three fresh questions, all at the hardest
configured tier sulit. -/
def dbC2 : DB :=
  { questions := [mkQC2 ("qs1"), mkQC2 ("qs2"), mkQC2 ("qs3")],
    usages := [], sessions := [] }

/-- Witness for C2: on a bank of fresh sulit questions the primary tier
returns nothing, while the assembled session is filled entirely by the
tier-2 fallback. -/
theorem primarySelection_hard_returns_nothing_witness :
    (dbC2.questions.all (fun q =>
      q.difficulty == ("mudah") || q.difficulty == ("sedang") ||
        q.difficulty == ("sulit"))) = true ∧
    (primarySelection dbC2 ("u1") ("cpns") ("tiu") 2 none).questions = [] ∧
    (createNewSession dbC2 ("u1") ("practice") ("cpns") ("tiu") (some 2) none
        ("sNew") 7).1 =
      CreateResult.created ("sNew") 2 [("qs1"), ("qs2")] :=
  ⟨by decide,
   primarySelection_hard_returns_nothing dbC2 ("u1") ("cpns") ("tiu") 2 none (by decide),
   by decide⟩

/-! ## Claim C4 -/

/-- The question of the C4 store. -/
def qC4 : Question :=
  { question_id := ("q1"), test_category := ("cpns"), subject := ("tiu"),
    difficulty := ("sedang"), correct_answer := some ("A") }

/-- The completed session of the C4 store. -/
def sessC4 : SessionRec :=
  { session_id := ("s1"), user_id := ("u1"), test_category := ("cpns"),
    subject := ("tiu"), difficulty := ("mixed"), total_questions := 1,
    status := ("completed") }

/-- The unanswered usage row of the C4 store. -/
def usageC4 : Usage :=
  { usage_id := 0, question_id := ("q1"), user_id := ("u1"),
    session_id := ("s1"), used_at := 0 }

/-- The C4 store: a completed session whose single usage row is still
unanswered. -/
def dbC4 : DB := { questions := [qC4], usages := [usageC4], sessions := [sessC4] }

/-- C4 evidence.  submit_answer consults no session status: on a store whose
session is already completed it still succeeds and writes the answer fields
(user_answered, user_answer, was_correct, time_spent) onto the UsageRecord of
that session, so correctness outcomes of a completed session are mutable. -/
theorem submitAnswer_writes_after_completion :
    (findSessionOwned dbC4 ("s1") ("u1")).map (fun s => s.status) =
      some ("completed") ∧
    submitAnswer dbC4 ("s1") ("q1") ("A") (some 5) =
      (AnswerResult.answered true (some ("A")) none,
       { questions := [qC4],
         usages := [{ usage_id := 0, question_id := ("q1"), user_id := ("u1"),
                      session_id := ("s1"), used_at := 0, user_answered := true,
                      user_answer := some ("A"), was_correct := true,
                      time_spent := some 5 }],
         sessions := [sessC4] }) :=
  ⟨by decide, by decide⟩

/-! ## Claim C5 -/

/-- The answered usage row of the C5 store. -/
def usageC5 : Usage :=
  { usage_id := 0, question_id := ("q1"), user_id := ("u1"),
    session_id := ("s1"), used_at := 3, user_answered := true,
    user_answer := some ("A"), was_correct := true }

/-- The completed session of the C5 store. -/
def sessC5 : SessionRec :=
  { session_id := ("s1"), user_id := ("u1"), test_category := ("cpns"),
    subject := ("tiu"), difficulty := ("mixed"), total_questions := 1,
    status := ("completed") }

/-- The C5 store: one session with one usage row recording the only exposure
of the user. -/
def dbC5 : DB := { questions := [], usages := [usageC5], sessions := [sessC5] }

/-- C5 counterexample.  Deleting the session through the delete endpoint
cascade-deletes its usage row (the schema declares ondelete CASCADE on
question_usage.session_id), so the record does not persist and the lifetime
ever-seen set of the user shrinks back to empty. -/
theorem deleteSession_erases_usage_counterexample :
    dbC5.usages = [usageC5] ∧
    (deleteSession dbC5 ("s1") ("u1")).1 = DeleteResult.deleted ∧
    (deleteSession dbC5 ("s1") ("u1")).2.usages = [] :=
  ⟨rfl, by decide, by decide⟩

/-- The identifying triple of a usage row. -/
def usageTriple (u : Usage) : String × String × String :=
  (u.question_id, u.user_id, u.session_id)

/-- In-place answer updates preserve the identity of every usage row. -/
theorem updateFirstUsage_map_triple (l : List Usage) (sid qid : String)
    (f : Usage → Usage) (hf : ∀ u, usageTriple (f u) = usageTriple u) :
    (updateFirstUsage l sid qid f).map usageTriple = l.map usageTriple := by
  induction l with
  | nil => rfl
  | cons u rest ih =>
    by_cases h : (u.session_id == sid && u.question_id == qid) = true
    · simp [updateFirstUsage, h, hf]
    · simp [updateFirstUsage, h, ih]

/-- Answer submission never deletes a usage row: the list of identifying
triples is unchanged. -/
theorem submitAnswer_usages_triples (db : DB) (sid qid ans : String) (t : Option Nat) :
    ((submitAnswer db sid qid ans t).2).usages.map usageTriple =
      db.usages.map usageTriple := by
  cases h : db.questions.find? (fun q => q.question_id == qid) with
  | none => simp [submitAnswer, h]
  | some q =>
    simp only [submitAnswer, h]
    exact updateFirstUsage_map_triple _ _ _ _ (fun u => rfl)

/-- Session completion touches no usage row at all. -/
theorem completeSession_usages (db : DB) (sid : String) (now : Nat) :
    ((completeSession db sid now).2).usages = db.usages := by
  cases h : db.sessions.find? (fun s => s.session_id == sid) <;>
    simp [completeSession, h]

/-- The submit endpoint touches no usage row at all. -/
theorem submitSession_usages (db : DB) (sid uid : String) (now : Nat) :
    ((submitSession db sid uid now).2).usages = db.usages := by
  cases hf : findSessionOwned db sid uid with
  | none => simp [submitSession, hf]
  | some sess =>
    by_cases hb : (sess.status == ("selesai") || sess.status == ("completed")) = true
    · simp [submitSession, hf, hb]
    · rcases hcs : completeSession db sid now with ⟨r, db1⟩
      have h1 : db1.usages = db.usages := by
        have h2 := completeSession_usages db sid now
        rw [hcs] at h2
        exact h2
      cases r <;> simp [submitSession, hf, hb, hcs, h1]

/-- Marking questions used only appends usage rows. -/
theorem markQuestionsUsed_usages_append (uid sid : String) (now : Nat) :
    ∀ (qids : List String) (db : DB), ∃ l2,
      (markQuestionsUsed db qids uid sid now).usages = db.usages ++ l2
  | [], db => ⟨[], by simp [markQuestionsUsed]⟩
  | qid :: rest, db => by
    obtain ⟨l2, hl2⟩ := markQuestionsUsed_usages_append uid sid now rest
      { db with
        usages := db.usages ++
          [{ usage_id := db.usages.length, question_id := qid, user_id := uid,
             session_id := sid, used_at := now }],
        questions := db.questions.map (fun q =>
          if q.question_id == qid then
            { q with is_used := true, usage_count := some (q.usage_count.getD 0 + 1),
                     last_used_at := some now }
          else q) }
    refine ⟨{ usage_id := db.usages.length, question_id := qid, user_id := uid,
              session_id := sid, used_at := now } :: l2, ?_⟩
    simp only [markQuestionsUsed, List.foldl_cons] at hl2 ⊢
    rw [hl2]
    simp

/-- Session creation only appends usage rows. -/
theorem createNewSession_usages_append (db : DB) (uid session_type cat subj : String)
    (countArg : Option Nat) (st : Option String) (sid : String) (now : Nat) :
    ∃ l2, ((createNewSession db uid session_type cat subj countArg st sid now).2).usages =
      db.usages ++ l2 := by
  rw [createNewSession]
  by_cases hempty :
      (assembleQuestions db uid cat subj (countArg.getD (defaultQuestionCount cat subj)) st).isEmpty = true
  · exact ⟨[], by simp [hempty]⟩
  · simp only [hempty, Bool.false_eq_true, if_false]
    obtain ⟨l2, hl2⟩ := markQuestionsUsed_usages_append uid sid now
      ((assembleQuestions db uid cat subj (countArg.getD (defaultQuestionCount cat subj)) st).map
        (fun q => q.question_id))
      { db with sessions := db.sessions ++
          [{ session_id := sid, user_id := uid, test_category := cat, subject := subj,
             subtype := st, difficulty := ("mixed"),
             total_questions := (assembleQuestions db uid cat subj
               (countArg.getD (defaultQuestionCount cat subj)) st).length,
             status := ("created"),
             mode := if session_type == ("exam") then ("exam") else ("practice"),
             session_type := if session_type == ("exam") then ("exam") else ("standard"),
             time_limit := defaultTimeLimit cat subj,
             unanswered_count := (assembleQuestions db uid cat subj
               (countArg.getD (defaultQuestionCount cat subj)) st).length }]}
    exact ⟨l2, hl2⟩

/-- C5 as amended.  A usage record persists through answer submission,
session completion and session creation (which only appends rows), but not
through session deletion: the delete endpoint removes exactly the usage rows
of the deleted session, via the declared foreign-key cascade, so the
ever-seen set of a user can shrink when one of their sessions is deleted. -/
theorem usageRecords_persist_except_delete :
    (∀ db sid qid ans t, ((submitAnswer db sid qid ans t).2).usages.map usageTriple =
      db.usages.map usageTriple) ∧
    (∀ db sid now, ((completeSession db sid now).2).usages = db.usages) ∧
    (∀ db sid uid now, ((submitSession db sid uid now).2).usages = db.usages) ∧
    (∀ db uid session_type cat subj countArg st sid now, ∃ l2,
      ((createNewSession db uid session_type cat subj countArg st sid now).2).usages =
        db.usages ++ l2) ∧
    (∀ db sid uid, ((deleteSession db sid uid).2).usages =
      if (findSessionOwned db sid uid).isSome then
        db.usages.filter (fun u => !(u.session_id == sid))
      else db.usages) :=
  ⟨submitAnswer_usages_triples, completeSession_usages, submitSession_usages,
   fun db uid session_type cat subj countArg st sid now =>
     createNewSession_usages_append db uid session_type cat subj countArg st sid now,
   fun db sid uid => by
     cases h : findSessionOwned db sid uid <;> simp [deleteSession, h]⟩

/-! ## Claim C6 -/

/-- The question of the C6 store. -/
def qC6 : Question :=
  { question_id := ("q1"), test_category := ("cpns"), subject := ("tiu"),
    difficulty := ("sedang"), correct_answer := some ("A") }

/-- The in-progress session of the C6 store. -/
def sessC6 : SessionRec :=
  { session_id := ("s1"), user_id := ("u1"), test_category := ("cpns"),
    subject := ("tiu"), difficulty := ("mixed"), total_questions := 1,
    status := ("in_progress") }

/-- The C6 store: the session has no usage row for the question. -/
def dbC6 : DB := { questions := [qC6], usages := [], sessions := [sessC6] }

/-- C6 counterexample.  With no matching UsageRecord in the session,
submit_answer does not fail: it returns ordinary graded feedback (the result
type has no consistency-error case at all) and leaves the store unchanged,
instead of reporting a ConsistencyError to the caller. -/
theorem submitAnswer_no_usage_counterexample :
    dbC6.usages.find? (fun u => u.session_id == ("s1") && u.question_id == ("q1")) =
      none ∧
    submitAnswer dbC6 ("s1") ("q1") ("B") none =
      (AnswerResult.answered false (some ("A")) none, dbC6) :=
  ⟨rfl, by decide⟩

/-- A missing match makes the in-place update a no-op. -/
theorem updateFirstUsage_of_no_match (l : List Usage) (sid qid : String)
    (f : Usage → Usage)
    (h : l.find? (fun u => u.session_id == sid && u.question_id == qid) = none) :
    updateFirstUsage l sid qid f = l := by
  induction l with
  | nil => rfl
  | cons u rest ih =>
    rw [List.find?_eq_none] at h
    by_cases hp : (u.session_id == sid && u.question_id == qid) = true
    · exact absurd hp (by simpa using h u (List.mem_cons_self u rest))
    · have hrest : rest.find? (fun u => u.session_id == sid && u.question_id == qid) =
          none := by
        rw [List.find?_eq_none]
        intro x hx
        exact h x (List.mem_cons_of_mem u hx)
      simp [updateFirstUsage, hp, ih hrest]

/-- C6 as amended.  When no UsageRecord matches the session and question,
submit_answer silently creates nothing and changes nothing: it returns the
graded feedback as a success and the store is returned untouched; no error
is reported to the caller. -/
theorem submitAnswer_missing_usage_silent
    (db : DB) (sid qid ans : String) (t : Option Nat) (q : Question)
    (hq : db.questions.find? (fun x => x.question_id == qid) = some q)
    (hu : db.usages.find? (fun u => u.session_id == sid && u.question_id == qid) = none) :
    submitAnswer db sid qid ans t =
      (AnswerResult.answered (answerMatches ans q) q.correct_answer q.explanation, db) := by
  simp only [submitAnswer, hq, updateFirstUsage_of_no_match db.usages sid qid _ hu]

/-- Witness for C6 as amended: on the concrete store the submission grades
the answer as correct, reports success, and the store is unchanged. -/
theorem submitAnswer_missing_usage_silent_witness :
    dbC6.questions.find? (fun x => x.question_id == ("q1")) = some qC6 ∧
    dbC6.usages.find? (fun u => u.session_id == ("s1") && u.question_id == ("q1")) =
      none ∧
    submitAnswer dbC6 ("s1") ("q1") ("A") none =
      (AnswerResult.answered true (some ("A")) none, dbC6) :=
  ⟨by decide, rfl, by
    rw [submitAnswer_missing_usage_silent dbC6 ("s1") ("q1") ("A") none qC6
      (by decide) rfl]
    decide⟩

end MLQB
